import Mathlib

/-!
Shallow embedding of the `rust-ping` crate's `src/ping.rs`, together with the
parts of the crate it uses that are not among the given sources
(`src/packet.rs` and `src/errors.rs`), which are modelled from the spec.

Time is measured in abstract integral units (conceptually nanoseconds); a
`Duration` is a natural number of such units.  Bytes are natural numbers
taken modulo 256 where the codec reads them.  The transport (socket) is an
external collaborator per the spec: a probe run consumes a list of receive
events, each either a datagram handed back by the blocking `read` at some
wall-clock time, or an I/O fault.  A `read` whose deadline expires before
the next event arrives yields the transport's timeout fault.
-/

namespace RustPing

/-- Modelled from the spec: `packet.rs` is not among the sources; the ICMP
header is 8 bytes (type, code, checksum, identifier, sequence), fixed per
protocol version (spec §3). -/
def ICMP_HEADER_SIZE : Nat := 8

/-- Size of the randomized payload token (`ping.rs` line 11). -/
def TOKEN_SIZE : Nat := 24

/-- Size of the echo-request send buffer (`ping.rs` line 12). -/
def ECHO_REQUEST_BUFFER_SIZE : Nat := ICMP_HEADER_SIZE + TOKEN_SIZE

/-- Modelled from the spec: the two ICMP header strategies `IcmpV4` and
`IcmpV6` of `packet.rs` (spec §3, §4.1). -/
inductive IcmpVariant
  | V4
  | V6
deriving DecidableEq

/-- Modelled from the spec: echo-request type byte per variant (8 on V4,
128 on V6; spec §3). -/
def IcmpVariant.echoRequestType : IcmpVariant → Nat
  | .V4 => 8
  | .V6 => 128

/-- Modelled from the spec: echo-reply type byte per variant (0 on V4,
129 on V6; spec §3). -/
def IcmpVariant.echoReplyType : IcmpVariant → Nat
  | .V4 => 0
  | .V6 => 129

/-- Big-endian 16-bit words of a byte list; an odd trailing byte is padded
with a zero low byte (spec glossary: Internet checksum). -/
def wordsOf : List Nat → List Nat
  | [] => []
  | [b] => [b % 256 * 256]
  | b1 :: b2 :: rest => (b1 % 256 * 256 + b2 % 256) :: wordsOf rest

/-- Fold the carries of a ones'-complement sum until it fits in 16 bits. -/
def foldCarry (s : Nat) : Nat :=
  if h : s < 65536 then s else foldCarry (s % 65536 + s / 65536)
termination_by s
decreasing_by omega

/-- Modelled from the spec: the Internet checksum — 16-bit ones'-complement
sum of all 16-bit words, carries folded, then complemented (spec §4.1). -/
def checksum (bytes : List Nat) : Nat := 65535 - foldCarry (wordsOf bytes).sum

/-- Modelled from the spec: `EchoRequest` of `packet.rs` — identifier,
sequence number and opaque payload (spec §3). -/
structure EchoRequest where
  ident : Nat
  seq_cnt : Nat
  payload : List Nat
deriving DecidableEq

/-- Big-endian byte pair of a 16-bit value. -/
def beBytes16 (n : Nat) : List Nat := [n / 256 % 256, n % 256]

/-- Modelled from the spec: the wire bytes a successful encode produces —
type and code per variant, identifier and sequence big-endian, payload after
the header; V4 computes the checksum over the assembled buffer with the
checksum field zero, V6 leaves it zero for the kernel (spec §4.1). -/
def EchoRequest.encodeBytes (req : EchoRequest) (v : IcmpVariant) : List Nat :=
  let body := [v.echoRequestType, 0, 0, 0] ++ beBytes16 req.ident
    ++ beBytes16 req.seq_cnt ++ req.payload
  match v with
  | .V6 => body
  | .V4 => [v.echoRequestType, 0] ++ beBytes16 (checksum body)
      ++ beBytes16 req.ident ++ beBytes16 req.seq_cnt ++ req.payload

/-- Modelled from the spec: `EchoRequest::encode` of `packet.rs` — fails
exactly when the destination buffer is shorter than
`ICMP_HEADER_SIZE + payload length` (spec §4.1). -/
def EchoRequest.encode (req : EchoRequest) (v : IcmpVariant)
    (buffer : List Nat) : Option (List Nat) :=
  if buffer.length < ICMP_HEADER_SIZE + req.payload.length then none
  else some (req.encodeBytes v)

/-- Modelled from the spec: `EchoReply` of `packet.rs` (spec §3). -/
structure EchoReply where
  ident : Nat
  seq_cnt : Nat
  payload : List Nat
deriving DecidableEq

/-- Modelled from the spec: `EchoReply::decode` of `packet.rs` — fails when
the buffer is shorter than the header, when the type or code byte is not the
variant's echo-reply value, or (V4 only) when recomputing the checksum over
the received bytes does not fold to zero; otherwise extracts identifier,
sequence and the remaining bytes as payload (spec §4.1). -/
def EchoReply.decode (v : IcmpVariant) (bytes : List Nat) : Option EchoReply :=
  if bytes.length < ICMP_HEADER_SIZE then none
  else if bytes.getD 0 0 = v.echoReplyType ∧ bytes.getD 1 0 = 0 then
    if v = .V4 ∧ checksum bytes ≠ 0 then none
    else some
      { ident := bytes.getD 4 0 % 256 * 256 + bytes.getD 5 0 % 256
        seq_cnt := bytes.getD 6 0 % 256 * 256 + bytes.getD 7 0 % 256
        payload := bytes.drop ICMP_HEADER_SIZE }
  else none

/-- Modelled from the spec: `IpV4Packet` of `packet.rs` — a view of the
ICMP payload slice of the outer IPv4 datagram (spec §3). -/
structure IpV4Packet where
  data : List Nat
deriving DecidableEq

/-- Modelled from the spec: `IpV4Packet::decode` of `packet.rs` — fails on
fewer than 1 byte or when the declared header length (low nibble of the
first byte times 4) exceeds the buffer length; the payload slice starts at
the declared header length (spec §4.1). -/
def IpV4Packet.decode (bytes : List Nat) : Option IpV4Packet :=
  if bytes.length < 1 then none
  else
    let hlen := bytes.getD 0 0 % 16 * 4
    if bytes.length < hlen then none
    else some ⟨bytes.drop hlen⟩

/-- Kinds of transport I/O faults; the transport contract distinguishes a
timeout condition from other faults (spec §6). -/
inductive IoKind
  | timedOut
  | other (code : Nat)
deriving DecidableEq

/-- Modelled from the spec: the error kinds of `errors.rs` that `ping.rs`
produces (spec §7): `InternalError`, `DecodeV4Error`, and `IoError` wrapping
a transport fault kind. -/
inductive Error
  | InternalError
  | DecodeV4Error
  | IoError (kind : IoKind)
deriving DecidableEq

/-- IP address, carrying only the protocol family and an abstract value. -/
inductive IpAddr
  | v4 (a : Nat)
  | v6 (a : Nat)
deriving DecidableEq

/-- Family test mirroring `dest.is_ipv4()` (`ping.rs` lines 45, 63, 81). -/
def IpAddr.is_ipv4 : IpAddr → Bool
  | .v4 _ => true
  | .v6 _ => false

/-- Socket type as used by this crate (`socket2::Type`). -/
inductive SockType
  | RAW
  | DGRAM
deriving DecidableEq

/-- One interaction of the blocking `read` with the transport: either a
datagram returned at wall-clock time `arrival` (with the byte count the
transport reported, the value `SystemTime::now().duration_since(start)`
would yield right after it — `none` models a clock that moved backwards —
and the datagram bytes), or an I/O fault surfacing at `arrival`. -/
inductive RecvEvent
  | datagram (arrival : Nat) (count : Nat) (clock : Option Nat) (data : List Nat)
  | fault (arrival : Nat) (kind : IoKind)
deriving DecidableEq

/-- Wall-clock time at which the event surfaces from the transport. -/
def RecvEvent.arrival : RecvEvent → Nat
  | .datagram t _ _ _ => t
  | .fault t _ => t

/-- Scratch buffer the loop reads into: a zero-initialized 2048-byte buffer
into which the transport copies the datagram (`ping.rs` line 78-79). -/
def pad2048 (data : List Nat) : List Nat :=
  data.take 2048 ++ List.replicate (2048 - data.length) 0

/-- Observable outcome of one probe run: the result, the sequence of
per-iteration receive deadlines handed to `set_read_timeout`, and the
wall-clock time (since start) at which the probe returns. -/
structure Outcome where
  result : Except Error Unit
  deadlines : List Nat
  finish : Nat

/-- Decision taken at `ping.rs` lines 97-110 once a reply has been decoded:
success on matching identifier; otherwise recompute the elapsed time
(`internalErr` when the clock fails), fail with the explicitly constructed
`TimedOut` I/O error when `elapsed >= timeout`, else loop with the new
elapsed value. -/
inductive LoopDecision
  | success
  | internalErr
  | timedOut
  | keepGoing (newElapsed : Nat)
deriving DecidableEq

/-- Embeds `ping.rs` lines 97-110. -/
def handleReply (timeout ident : Nat) (rep : EchoReply) (clock : Option Nat) :
    LoopDecision :=
  if rep.ident = ident then .success
  else
    match clock with
    | none => .internalErr
    | some t => if timeout ≤ t then .timedOut else .keepGoing t

/-- Embeds `ping.rs` lines 81-95: for IPv4 decode the outer IP header (a
failure is the fatal `DecodeV4Error`), then the echo reply from its payload
slice; for IPv6 decode the echo reply from the raw buffer.  `.ok none` is
the non-fatal `continue` on an ICMP decode failure. -/
def replyStep (isV4 : Bool) (buf : List Nat) : Except Error (Option EchoReply) :=
  if isV4 then
    match IpV4Packet.decode buf with
    | none => .error .DecodeV4Error
    | some p =>
      match EchoReply.decode .V4 p.data with
      | none => .ok none
      | some rep => .ok (some rep)
  else
    match EchoReply.decode .V6 buf with
    | none => .ok none
    | some rep => .ok (some rep)

/-- Embeds the receive loop of `ping.rs` lines 74-111.  Each iteration sets
the read deadline to `timeout - time_elapsed`, blocks for one event (an
event arriving after `now + deadline` means the read times out first, the
transport's timeout fault surfacing as an `IoError`), runs `replyStep` on
the padded scratch buffer, and acts on the decoded reply via `handleReply`.
On the `continue` of a failed ICMP decode, `time_elapsed` is left unchanged,
exactly as in the source. -/
def pingLoop (isV4 : Bool) (timeout ident : Nat) :
    Nat → Nat → List RecvEvent → Outcome
  | time_elapsed, now, [] =>
    ⟨.error (.IoError .timedOut), [timeout - time_elapsed],
      now + (timeout - time_elapsed)⟩
  | time_elapsed, now, e :: rest =>
    let deadline := timeout - time_elapsed
    if now + deadline < e.arrival then
      ⟨.error (.IoError .timedOut), [deadline], now + deadline⟩
    else
      match e with
      | .fault t k => ⟨.error (.IoError k), [deadline], t⟩
      | .datagram t _count clock data =>
        match replyStep isV4 (pad2048 data) with
        | .error err => ⟨.error err, [deadline], t⟩
        | .ok none =>
          let o := pingLoop isV4 timeout ident time_elapsed t rest
          ⟨o.result, deadline :: o.deadlines, o.finish⟩
        | .ok (some rep) =>
          match handleReply timeout ident rep clock with
          | .success => ⟨.ok (), [deadline], t⟩
          | .internalErr => ⟨.error .InternalError, [deadline], t⟩
          | .timedOut => ⟨.error (.IoError .timedOut), [deadline], t⟩
          | .keepGoing te =>
            let o := pingLoop isV4 timeout ident te t rest
            ⟨o.result, deadline :: o.deadlines, o.finish⟩

/-- Duration of `s` whole seconds, in time units (nanoseconds). -/
def durationFromSecs (s : Nat) : Nat := s * 1000000000

/-- Timeout resolution of `ping.rs` lines 29-32: default 4 seconds. -/
def resolveTimeout (t : Option Nat) : Nat := t.getD (durationFromSecs 4)

/-- TTL / hop-limit resolution of `ping.rs` lines 63-67: default 64. -/
def resolveTtl (t : Option Nat) : Nat := t.getD 64

/-- Identifier resolution of `ping.rs` line 40: `ident.unwrap_or(random())`
with a fresh random `u16` draw, modelled by the entropy `identR`. -/
def resolveIdent (i : Option Nat) (identR : Nat) : Nat := i.getD (identR % 65536)

/-- Sequence-number resolution of `ping.rs` line 41: default 1. -/
def resolveSeq (s : Option Nat) : Nat := s.getD 1

/-- Fresh random 24-byte token of `ping.rs` line 37, drawn from the entropy
source `g`. -/
def defaultToken (g : Nat → Nat) : List Nat :=
  (List.range TOKEN_SIZE).map (fun i => g i % 256)

/-- Payload resolution of `ping.rs` line 42: default a fresh random token. -/
def resolvePayload (p : Option (List Nat)) (g : Nat → Nat) : List Nat :=
  p.getD (defaultToken g)

/-- Embeds `ping_with_socktype` (`ping.rs` lines 16-112).  Transport setup
operations (socket creation, interface and address binding, TTL, write
timeout, the send) are the external collaborator and are taken fault-free;
`identR` and `g` stand for the per-call random draws, and `events` for the
transport's receive behaviour. -/
def ping_with_socktype (_socket_type : SockType) (addr : IpAddr)
    (_iface : Option (List Nat)) (_bind : Option IpAddr)
    (timeout : Option Nat) (_ttl : Option Nat) (ident : Option Nat)
    (seq_cnt : Option Nat) (payload : Option (List Nat))
    (identR : Nat) (g : Nat → Nat) (events : List RecvEvent) : Outcome :=
  let timeout := resolveTimeout timeout
  let request : EchoRequest :=
    { ident := resolveIdent ident identR
      seq_cnt := resolveSeq seq_cnt
      payload := resolvePayload payload g }
  let buffer := List.replicate ECHO_REQUEST_BUFFER_SIZE 0
  if addr.is_ipv4 then
    match request.encode .V4 buffer with
    | none => ⟨.error .InternalError, [], 0⟩
    | some _ => pingLoop true timeout request.ident 0 0 events
  else
    match request.encode .V6 buffer with
    | none => ⟨.error .InternalError, [], 0⟩
    | some _ => pingLoop false timeout request.ident 0 0 events

/-- Builder of `ping.rs` lines 184-269. -/
structure Ping where
  socket_type : SockType
  addr : IpAddr
  iface : Option (List Nat)
  bind : Option IpAddr
  timeout : Option Nat
  ttl : Option Nat
  ident : Option Nat
  seq_cnt : Option Nat
  payload : Option (List Nat)
deriving DecidableEq

/-- Embeds `Ping::new` (`ping.rs` lines 198-215): socket type RAW on
Windows and DGRAM elsewhere, every optional field `None`. -/
def Ping.new (os : String) (addr : IpAddr) : Ping :=
  { socket_type := if os = "windows" then .RAW else .DGRAM
    addr := addr
    iface := none
    bind := none
    timeout := none
    ttl := none
    ident := none
    seq_cnt := none
    payload := none }

/-- Embeds the builder setter `Ping::socket_type` (`ping.rs` line 217). -/
def Ping.set_socket_type (p : Ping) (v : SockType) : Ping :=
  { p with socket_type := v }

/-- Embeds the builder setter `Ping::iface` (`ping.rs` line 222). -/
def Ping.set_iface (p : Ping) (v : List Nat) : Ping := { p with iface := some v }

/-- Embeds the builder setter `Ping::bind` (`ping.rs` line 227). -/
def Ping.set_bind (p : Ping) (v : IpAddr) : Ping := { p with bind := some v }

/-- Embeds the builder setter `Ping::timeout` (`ping.rs` line 232). -/
def Ping.set_timeout (p : Ping) (v : Nat) : Ping := { p with timeout := some v }

/-- Embeds the builder setter `Ping::ttl` (`ping.rs` line 237). -/
def Ping.set_ttl (p : Ping) (v : Nat) : Ping := { p with ttl := some v }

/-- Embeds the builder setter `Ping::ident` (`ping.rs` line 242). -/
def Ping.set_ident (p : Ping) (v : Nat) : Ping := { p with ident := some v }

/-- Embeds the builder setter `Ping::seq_cnt` (`ping.rs` line 247). -/
def Ping.set_seq_cnt (p : Ping) (v : Nat) : Ping := { p with seq_cnt := some v }

/-- Embeds the builder setter `Ping::payload` (`ping.rs` line 252). -/
def Ping.set_payload (p : Ping) (v : List Nat) : Ping :=
  { p with payload := some v }

end RustPing

namespace RustPing

lemma getD_replicate (n i : Nat) (a d : Nat) :
    (List.replicate n a).getD i d = if i < n then a else d := by
  simp [List.getD_eq_getElem?_getD, List.getElem?_replicate]
  split <;> rfl

lemma pad2048_length (data : List Nat) : (pad2048 data).length = 2048 := by
  unfold pad2048
  rw [List.length_append, List.length_take, List.length_replicate]
  omega

lemma pad2048_nil : pad2048 [] = List.replicate 2048 0 := by
  rfl

lemma pad2048_of_le {data : List Nat} (h : data.length ≤ 2048) :
    pad2048 data = data ++ List.replicate (2048 - data.length) 0 := by
  unfold pad2048
  rw [List.take_of_length_le h]

lemma pad2048_getD {data : List Nat} {i : Nat} (hd : data.length ≤ 2048)
    (hi : i < data.length) : (pad2048 data).getD i 0 = data.getD i 0 := by
  rw [pad2048_of_le hd, List.getD_append _ _ _ _ hi]

lemma pingLoop_nil {isV4 : Bool} {T id te now : Nat} :
    pingLoop isV4 T id te now [] =
      ⟨.error (.IoError .timedOut), [T - te], now + (T - te)⟩ := rfl

lemma pingLoop_cons_late {isV4 : Bool} {T id te now : Nat} {e : RecvEvent}
    {rest : List RecvEvent} (h : now + (T - te) < e.arrival) :
    pingLoop isV4 T id te now (e :: rest) =
      ⟨.error (.IoError .timedOut), [T - te], now + (T - te)⟩ := by
  simp only [pingLoop]
  rw [if_pos h]

lemma pingLoop_fault {isV4 : Bool} {T id te now t : Nat} {k : IoKind}
    {rest : List RecvEvent} (h : ¬ now + (T - te) < t) :
    pingLoop isV4 T id te now (.fault t k :: rest) =
      ⟨.error (.IoError k), [T - te], t⟩ := by
  simp only [pingLoop, RecvEvent.arrival]
  rw [if_neg h]

lemma pingLoop_abort {isV4 : Bool} {T id te now t c : Nat} {cl : Option Nat}
    {data : List Nat} {rest : List RecvEvent} {err : Error}
    (h : ¬ now + (T - te) < t)
    (h2 : replyStep isV4 (pad2048 data) = .error err) :
    pingLoop isV4 T id te now (.datagram t c cl data :: rest) =
      ⟨.error err, [T - te], t⟩ := by
  simp only [pingLoop, RecvEvent.arrival]
  rw [if_neg h, h2]

lemma pingLoop_continue {isV4 : Bool} {T id te now t c : Nat} {cl : Option Nat}
    {data : List Nat} {rest : List RecvEvent}
    (h : ¬ now + (T - te) < t)
    (h2 : replyStep isV4 (pad2048 data) = .ok none) :
    pingLoop isV4 T id te now (.datagram t c cl data :: rest) =
      ⟨(pingLoop isV4 T id te t rest).result,
        (T - te) :: (pingLoop isV4 T id te t rest).deadlines,
        (pingLoop isV4 T id te t rest).finish⟩ := by
  simp only [pingLoop, RecvEvent.arrival]
  rw [if_neg h, h2]

lemma pingLoop_reply_success {isV4 : Bool} {T id te now t c : Nat}
    {cl : Option Nat} {data : List Nat} {rest : List RecvEvent} {rep : EchoReply}
    (h : ¬ now + (T - te) < t)
    (h2 : replyStep isV4 (pad2048 data) = .ok (some rep))
    (h3 : handleReply T id rep cl = .success) :
    pingLoop isV4 T id te now (.datagram t c cl data :: rest) =
      ⟨.ok (), [T - te], t⟩ := by
  simp only [pingLoop, RecvEvent.arrival]
  rw [if_neg h, h2]
  simp only [h3]

lemma pingLoop_reply_internal {isV4 : Bool} {T id te now t c : Nat}
    {cl : Option Nat} {data : List Nat} {rest : List RecvEvent} {rep : EchoReply}
    (h : ¬ now + (T - te) < t)
    (h2 : replyStep isV4 (pad2048 data) = .ok (some rep))
    (h3 : handleReply T id rep cl = .internalErr) :
    pingLoop isV4 T id te now (.datagram t c cl data :: rest) =
      ⟨.error .InternalError, [T - te], t⟩ := by
  simp only [pingLoop, RecvEvent.arrival]
  rw [if_neg h, h2]
  simp only [h3]

lemma pingLoop_reply_timedOut {isV4 : Bool} {T id te now t c : Nat}
    {cl : Option Nat} {data : List Nat} {rest : List RecvEvent} {rep : EchoReply}
    (h : ¬ now + (T - te) < t)
    (h2 : replyStep isV4 (pad2048 data) = .ok (some rep))
    (h3 : handleReply T id rep cl = .timedOut) :
    pingLoop isV4 T id te now (.datagram t c cl data :: rest) =
      ⟨.error (.IoError .timedOut), [T - te], t⟩ := by
  simp only [pingLoop, RecvEvent.arrival]
  rw [if_neg h, h2]
  simp only [h3]

lemma pingLoop_reply_keepGoing {isV4 : Bool} {T id te now t c : Nat}
    {cl : Option Nat} {data : List Nat} {rest : List RecvEvent} {rep : EchoReply}
    {te2 : Nat} (h : ¬ now + (T - te) < t)
    (h2 : replyStep isV4 (pad2048 data) = .ok (some rep))
    (h3 : handleReply T id rep cl = .keepGoing te2) :
    pingLoop isV4 T id te now (.datagram t c cl data :: rest) =
      ⟨(pingLoop isV4 T id te2 t rest).result,
        (T - te) :: (pingLoop isV4 T id te2 t rest).deadlines,
        (pingLoop isV4 T id te2 t rest).finish⟩ := by
  simp only [pingLoop, RecvEvent.arrival]
  rw [if_neg h, h2]
  simp only [h3]

end RustPing

namespace RustPing

lemma pad2048_getD0 {data : List Nat} (hd : data.length ≤ 2048) (i : Nat) :
    (pad2048 data).getD i 0 = if i < data.length then data.getD i 0 else 0 := by
  rw [pad2048_of_le hd]
  by_cases hi : i < data.length
  · rw [if_pos hi, List.getD_append _ _ _ _ hi]
  · rw [if_neg hi, List.getD_append_right _ _ _ _ (Nat.le_of_not_lt hi),
      getD_replicate]
    split <;> rfl

lemma decodeV6_pad (data : List Nat) :
    EchoReply.decode .V6 (pad2048 data) =
      if (pad2048 data).getD 0 0 = 129 ∧ (pad2048 data).getD 1 0 = 0 then
        some ⟨(pad2048 data).getD 4 0 % 256 * 256 + (pad2048 data).getD 5 0 % 256,
              (pad2048 data).getD 6 0 % 256 * 256 + (pad2048 data).getD 7 0 % 256,
              (pad2048 data).drop ICMP_HEADER_SIZE⟩
      else none := by
  unfold EchoReply.decode
  rw [pad2048_length]
  rw [if_neg (by norm_num [ICMP_HEADER_SIZE])]
  simp only [IcmpVariant.echoReplyType]
  split
  · rw [if_neg]
    simp
  · rfl

lemma decodeV6_pad_nil : EchoReply.decode .V6 (pad2048 []) = none := by
  rw [decodeV6_pad]
  rw [if_neg]
  rw [pad2048_getD0 (by norm_num)]
  norm_num

lemma replyStep_false_none {buf : List Nat}
    (h : EchoReply.decode .V6 buf = none) : replyStep false buf = .ok none := by
  unfold replyStep
  simp [h]

lemma replyStep_false_some {buf : List Nat} {rep : EchoReply}
    (h : EchoReply.decode .V6 buf = some rep) :
    replyStep false buf = .ok (some rep) := by
  unfold replyStep
  simp [h]

lemma replyStep_true_outer {buf : List Nat}
    (h : IpV4Packet.decode buf = none) :
    replyStep true buf = .error .DecodeV4Error := by
  unfold replyStep
  simp [h]

lemma replyStep_true_icmp_none {buf : List Nat} {p : IpV4Packet}
    (h1 : IpV4Packet.decode buf = some p)
    (h2 : EchoReply.decode .V4 p.data = none) :
    replyStep true buf = .ok none := by
  unfold replyStep
  simp [h1, h2]

lemma replyStep_true_icmp_some {buf : List Nat} {p : IpV4Packet} {rep : EchoReply}
    (h1 : IpV4Packet.decode buf = some p)
    (h2 : EchoReply.decode .V4 p.data = some rep) :
    replyStep true buf = .ok (some rep) := by
  unfold replyStep
  simp [h1, h2]

lemma encode_ok {req : EchoRequest} (v : IcmpVariant)
    (h : req.payload.length ≤ TOKEN_SIZE) :
    req.encode v (List.replicate ECHO_REQUEST_BUFFER_SIZE 0) =
      some (req.encodeBytes v) := by
  unfold EchoRequest.encode
  rw [if_neg]
  rw [List.length_replicate]
  simp only [ECHO_REQUEST_BUFFER_SIZE, ICMP_HEADER_SIZE, TOKEN_SIZE] at *
  omega

lemma defaultToken_length (g : Nat → Nat) : (defaultToken g).length = TOKEN_SIZE := by
  simp [defaultToken]

lemma resolvePayload_length_none (g : Nat → Nat) :
    (resolvePayload none g).length = TOKEN_SIZE := defaultToken_length g

lemma ping_run {st : SockType} {addr : IpAddr} {ifc : Option (List Nat)}
    {bnd : Option IpAddr} {tO ttlO idO sO : Option Nat} {pO : Option (List Nat)}
    {r : Nat} {g : Nat → Nat} {ev : List RecvEvent}
    (h : (resolvePayload pO g).length ≤ TOKEN_SIZE) :
    ping_with_socktype st addr ifc bnd tO ttlO idO sO pO r g ev =
      pingLoop addr.is_ipv4 (resolveTimeout tO) (resolveIdent idO r) 0 0 ev := by
  unfold ping_with_socktype
  cases addr with
  | v4 a =>
    simp only [IpAddr.is_ipv4, if_true]
    rw [encode_ok .V4 h]
  | v6 a =>
    simp only [IpAddr.is_ipv4, Bool.false_eq_true, if_false]
    rw [encode_ok .V6 h]

lemma handleReply_success_iff (T id : Nat) (rep : EchoReply) (cl : Option Nat) :
    handleReply T id rep cl = .success ↔ rep.ident = id := by
  unfold handleReply
  by_cases h : rep.ident = id
  · simp [h]
  · rw [if_neg h]
    cases cl with
    | none => simp [h]
    | some t =>
      by_cases ht : T ≤ t
      · simp [ht, h]
      · simp [ht, h]

lemma handleReply_ident_only (T id : Nat) (cl : Option Nat)
    (rep rep' : EchoReply) (h : rep.ident = rep'.ident) :
    handleReply T id rep cl = handleReply T id rep' cl := by
  unfold handleReply
  rw [h]

lemma handleReply_mismatch_none {T id : Nat} {rep : EchoReply}
    (h : rep.ident ≠ id) : handleReply T id rep none = .internalErr := by
  unfold handleReply
  rw [if_neg h]

lemma handleReply_mismatch_timeout {T id tc : Nat} {rep : EchoReply}
    (h : rep.ident ≠ id) (h2 : T ≤ tc) :
    handleReply T id rep (some tc) = .timedOut := by
  unfold handleReply
  rw [if_neg h]
  simp [h2]

lemma handleReply_mismatch_continue {T id tc : Nat} {rep : EchoReply}
    (h : rep.ident ≠ id) (h2 : tc < T) :
    handleReply T id rep (some tc) = .keepGoing tc := by
  unfold handleReply
  rw [if_neg h]
  simp [Nat.not_le.mpr h2]

end RustPing

namespace RustPing

lemma pingLoop_deadlines_le (isV4 : Bool) (T id : Nat) :
    ∀ (ev : List RecvEvent) (te now d : Nat),
      d ∈ (pingLoop isV4 T id te now ev).deadlines → d ≤ T := by
  intro ev
  induction ev with
  | nil =>
    intro te now d hd
    rw [pingLoop_nil] at hd
    simp at hd
    omega
  | cons e rest ih =>
    intro te now d hd
    by_cases hl : now + (T - te) < e.arrival
    · rw [pingLoop_cons_late hl] at hd
      simp at hd
      omega
    · cases e with
      | fault t k =>
        simp only [RecvEvent.arrival] at hl
        rw [pingLoop_fault hl] at hd
        simp at hd
        omega
      | datagram t c cl data =>
        simp only [RecvEvent.arrival] at hl
        cases hrs : replyStep isV4 (pad2048 data) with
        | error err =>
          rw [pingLoop_abort hl hrs] at hd
          simp at hd
          omega
        | ok orep =>
          cases orep with
          | none =>
            rw [pingLoop_continue hl hrs] at hd
            simp at hd
            rcases hd with hd | hd
            · omega
            · exact ih te t d hd
          | some rep =>
            cases hhr : handleReply T id rep cl with
            | success =>
              rw [pingLoop_reply_success hl hrs hhr] at hd
              simp at hd
              omega
            | internalErr =>
              rw [pingLoop_reply_internal hl hrs hhr] at hd
              simp at hd
              omega
            | timedOut =>
              rw [pingLoop_reply_timedOut hl hrs hhr] at hd
              simp at hd
              omega
            | keepGoing te2 =>
              rw [pingLoop_reply_keepGoing hl hrs hhr] at hd
              simp at hd
              rcases hd with hd | hd
              · omega
              · exact ih te2 t d hd

lemma pingLoop_ok_ident (isV4 : Bool) (T id : Nat) :
    ∀ (ev : List RecvEvent) (te now : Nat),
      (pingLoop isV4 T id te now ev).result = .ok () →
      ∃ e ∈ ev, ∃ t c cl data rep, e = RecvEvent.datagram t c cl data ∧
        replyStep isV4 (pad2048 data) = .ok (some rep) ∧ rep.ident = id := by
  intro ev
  induction ev with
  | nil =>
    intro te now hok
    rw [pingLoop_nil] at hok
    simp at hok
  | cons e rest ih =>
    intro te now hok
    by_cases hl : now + (T - te) < e.arrival
    · rw [pingLoop_cons_late hl] at hok
      simp at hok
    · cases e with
      | fault t k =>
        simp only [RecvEvent.arrival] at hl
        rw [pingLoop_fault hl] at hok
        simp at hok
      | datagram t c cl data =>
        simp only [RecvEvent.arrival] at hl
        cases hrs : replyStep isV4 (pad2048 data) with
        | error err =>
          rw [pingLoop_abort hl hrs] at hok
          simp at hok
        | ok orep =>
          cases orep with
          | none =>
            rw [pingLoop_continue hl hrs] at hok
            simp only at hok
            rcases ih te t hok with ⟨e2, he2, rest2⟩
            exact ⟨e2, List.mem_cons_of_mem _ he2, rest2⟩
          | some rep =>
            cases hhr : handleReply T id rep cl with
            | success =>
              refine ⟨RecvEvent.datagram t c cl data, List.mem_cons_self _ _,
                t, c, cl, data, rep, rfl, hrs, ?_⟩
              exact (handleReply_success_iff T id rep cl).mp hhr
            | internalErr =>
              rw [pingLoop_reply_internal hl hrs hhr] at hok
              simp at hok
            | timedOut =>
              rw [pingLoop_reply_timedOut hl hrs hhr] at hok
              simp at hok
            | keepGoing te2 =>
              rw [pingLoop_reply_keepGoing hl hrs hhr] at hok
              simp only at hok
              rcases ih te2 t hok with ⟨e2, he2, rest2⟩
              exact ⟨e2, List.mem_cons_of_mem _ he2, rest2⟩

end RustPing

namespace RustPing

lemma decodeV6_d5 :
    EchoReply.decode .V6 (pad2048 [129, 0, 0, 0, 0, 5, 0, 1]) =
      some ⟨5, 1, (pad2048 [129, 0, 0, 0, 0, 5, 0, 1]).drop ICMP_HEADER_SIZE⟩ := by
  have hle : ([129, 0, 0, 0, 0, 5, 0, 1] : List Nat).length ≤ 2048 := by decide
  rw [decodeV6_pad]
  simp only [pad2048_getD0 hle]
  norm_num [List.getD_cons_zero, List.getD_cons_succ, List.length_cons]

lemma decodeV6_d7 :
    EchoReply.decode .V6 (pad2048 [129, 0, 0, 0, 0, 7, 0, 1]) =
      some ⟨7, 1, (pad2048 [129, 0, 0, 0, 0, 7, 0, 1]).drop ICMP_HEADER_SIZE⟩ := by
  have hle : ([129, 0, 0, 0, 0, 7, 0, 1] : List Nat).length ≤ 2048 := by decide
  rw [decodeV6_pad]
  simp only [pad2048_getD0 hle]
  norm_num [List.getD_cons_zero, List.getD_cons_succ, List.length_cons]

lemma run_c1 :
    ping_with_socktype .DGRAM (.v6 0) none none (some 4) none (some 7) none none
      0 (fun _ => 0)
      [.datagram 3 0 (some 3) [], .datagram 6 0 (some 6) []] =
      ⟨.error (.IoError .timedOut), [4, 4, 4], 10⟩ := by
  rw [ping_run (by decide)]
  show pingLoop false 4 7 0 0 _ = _
  rw [pingLoop_continue (by norm_num) (replyStep_false_none decodeV6_pad_nil)]
  rw [pingLoop_continue (by norm_num) (replyStep_false_none decodeV6_pad_nil)]
  rw [pingLoop_nil]

lemma run_c5 :
    ping_with_socktype .DGRAM (.v6 0) none none (some 4) none (some 7) none none
      0 (fun _ => 0) [.datagram 1 0 (some 1) [129, 0, 0, 0, 0, 5, 0, 1]] =
      ⟨.error (.IoError .timedOut), [4, 3], 4⟩ := by
  rw [ping_run (by decide)]
  show pingLoop false 4 7 0 0 _ = _
  rw [pingLoop_reply_keepGoing (by norm_num)
    (replyStep_false_some decodeV6_d5)
    (handleReply_mismatch_continue (by decide) (by norm_num))]
  rw [pingLoop_nil]

end RustPing

namespace RustPing

/-- C1: the claim says every iteration recomputes the receive deadline as
`timeout - elapsed`, strictly decreasing, so a flood of decode-failing
packets cannot extend the budget. The code reuses the stale elapsed value on
the `continue` of a decode failure: with timeout 4 and decode-failing
datagrams read at times 3 and 6, the deadline is 4 on all three iterations
and the probe returns at time 10, past the configured timeout. -/
theorem C1_stale_deadline_flood :
    (ping_with_socktype .DGRAM (.v6 0) none none (some 4) none (some 7) none
      none 0 (fun _ => 0)
      [.datagram 3 0 (some 3) [], .datagram 6 0 (some 6) []]).deadlines =
      [4, 4, 4] ∧
    (ping_with_socktype .DGRAM (.v6 0) none none (some 4) none (some 7) none
      none 0 (fun _ => 0)
      [.datagram 3 0 (some 3) [], .datagram 6 0 (some 6) []]).finish = 10 ∧
    (ping_with_socktype .DGRAM (.v6 0) none none (some 4) none (some 7) none
      none 0 (fun _ => 0)
      [.datagram 3 0 (some 3) [], .datagram 6 0 (some 6) []]).result =
      .error (.IoError .timedOut) ∧
    resolveTimeout (some 4) <
      (ping_with_socktype .DGRAM (.v6 0) none none (some 4) none (some 7) none
        none 0 (fun _ => 0)
        [.datagram 3 0 (some 3) [], .datagram 6 0 (some 6) []]).finish := by
  rw [run_c1]
  exact ⟨rfl, rfl, rfl, by decide⟩

/-- C5 counterexample: one non-matching decoded reply at time 1 against
timeout 4 yields per-iteration deadlines 4 and 3, whose sum 7 exceeds the
configured total timeout 4. -/
theorem C5_sum_of_deadlines_exceeds_timeout :
    resolveTimeout (some 4) <
      (ping_with_socktype .DGRAM (.v6 0) none none (some 4) none (some 7) none
        none 0 (fun _ => 0)
        [.datagram 1 0 (some 1) [129, 0, 0, 0, 0, 5, 0, 1]]).deadlines.sum := by
  rw [run_c5]
  decide

/-- C5 amended: each individual per-iteration receive deadline never exceeds
the configured total timeout (their sum can exceed it as soon as the loop
runs more than once). -/
theorem C5_each_deadline_le_timeout :
    ∀ (st : SockType) (addr : IpAddr) (ifc : Option (List Nat))
      (bnd : Option IpAddr) (tO ttlO idO sO : Option Nat)
      (pO : Option (List Nat)) (r : Nat) (g : Nat → Nat)
      (ev : List RecvEvent) (d : Nat),
      d ∈ (ping_with_socktype st addr ifc bnd tO ttlO idO sO pO r g ev).deadlines →
      d ≤ resolveTimeout tO := by
  intro st addr ifc bnd tO ttlO idO sO pO r g ev d hd
  unfold ping_with_socktype at hd
  cases addr <;>
    simp only [IpAddr.is_ipv4, Bool.false_eq_true, if_true, if_false] at hd <;>
    split at hd <;>
    first
      | simp at hd
      | exact pingLoop_deadlines_le _ _ _ ev 0 0 d hd

/-- C5 amended, witness at a concrete run. -/
theorem C5_each_deadline_le_timeout_witness : (4 : Nat) ≤ resolveTimeout (some 4) :=
  C5_each_deadline_le_timeout .RAW (.v6 1) none none (some 4) none (some 7)
    none none 0 (fun _ => 0) [] 4 (by decide)

/-- C6: with no overrides the probe resolves timeout to 4 seconds, TTL to
64, sequence number to 1, the identifier to a fresh random 16-bit draw and
the payload to a fresh random 24-byte token. -/
theorem C6_defaults :
    resolveTimeout none = durationFromSecs 4 ∧
    durationFromSecs 4 = 4 * 1000000000 ∧
    resolveTtl none = 64 ∧
    resolveSeq none = 1 ∧
    (∀ r, resolveIdent none r = r % 65536 ∧ r % 65536 < 65536) ∧
    (∀ g, resolvePayload none g = defaultToken g ∧
      (defaultToken g).length = TOKEN_SIZE) :=
  ⟨rfl, rfl, rfl, rfl, fun r => ⟨rfl, Nat.mod_lt r (by norm_num)⟩,
    fun g => ⟨rfl, defaultToken_length g⟩⟩

/-- C7: the send buffer is exactly `ICMP_HEADER_SIZE + TOKEN_SIZE` bytes,
and an encode failure into it makes the probe return `InternalError` (with
no transport interaction), for either protocol variant. -/
theorem C7_buffer_size_and_encode_failure :
    (List.replicate ECHO_REQUEST_BUFFER_SIZE 0).length =
      ICMP_HEADER_SIZE + TOKEN_SIZE ∧
    ∀ (st : SockType) (addr : IpAddr) (ifc : Option (List Nat))
      (bnd : Option IpAddr) (tO ttlO idO sO : Option Nat)
      (pO : Option (List Nat)) (r : Nat) (g : Nat → Nat) (ev : List RecvEvent),
      EchoRequest.encode
        ⟨resolveIdent idO r, resolveSeq sO, resolvePayload pO g⟩
        (if addr.is_ipv4 then .V4 else .V6)
        (List.replicate ECHO_REQUEST_BUFFER_SIZE 0) = none →
      ping_with_socktype st addr ifc bnd tO ttlO idO sO pO r g ev =
        ⟨.error .InternalError, [], 0⟩ := by
  constructor
  · rw [List.length_replicate, ECHO_REQUEST_BUFFER_SIZE]
  · intro st addr ifc bnd tO ttlO idO sO pO r g ev h
    unfold ping_with_socktype
    cases addr <;>
      simp only [IpAddr.is_ipv4, Bool.false_eq_true, if_true, if_false] at h ⊢ <;>
      rw [h]

/-- C7 witness: a 25-byte payload override does not fit the 32-byte buffer,
so encoding fails and the probe returns `InternalError`. -/
theorem C7_buffer_size_and_encode_failure_witness :
    ping_with_socktype .RAW (.v4 0) none none none none none none
      (some (List.replicate 25 0)) 0 (fun i => i) [] =
      ⟨.error .InternalError, [], 0⟩ :=
  C7_buffer_size_and_encode_failure.2 .RAW (.v4 0) none none none none none
    none (some (List.replicate 25 0)) 0 (fun i => i) [] (by decide)

/-- C10: `Ping::new` initializes every optional field to `None` (socket
type RAW on Windows, DGRAM elsewhere), and each builder setter changes only
its named field, wrapping the value in `Some` for the optional ones. -/
theorem C10_builder_frame :
    ∀ (p : Ping) (os : String) (a : IpAddr) (st : SockType) (ifc : List Nat)
      (b : IpAddr) (tv ttlv idv sv : Nat) (pv : List Nat),
      Ping.new os a = ⟨if os = "windows" then .RAW else .DGRAM, a, none, none,
        none, none, none, none, none⟩ ∧
      p.set_socket_type st = ⟨st, p.addr, p.iface, p.bind, p.timeout, p.ttl,
        p.ident, p.seq_cnt, p.payload⟩ ∧
      p.set_iface ifc = ⟨p.socket_type, p.addr, some ifc, p.bind, p.timeout,
        p.ttl, p.ident, p.seq_cnt, p.payload⟩ ∧
      p.set_bind b = ⟨p.socket_type, p.addr, p.iface, some b, p.timeout,
        p.ttl, p.ident, p.seq_cnt, p.payload⟩ ∧
      p.set_timeout tv = ⟨p.socket_type, p.addr, p.iface, p.bind, some tv,
        p.ttl, p.ident, p.seq_cnt, p.payload⟩ ∧
      p.set_ttl ttlv = ⟨p.socket_type, p.addr, p.iface, p.bind, p.timeout,
        some ttlv, p.ident, p.seq_cnt, p.payload⟩ ∧
      p.set_ident idv = ⟨p.socket_type, p.addr, p.iface, p.bind, p.timeout,
        p.ttl, some idv, p.seq_cnt, p.payload⟩ ∧
      p.set_seq_cnt sv = ⟨p.socket_type, p.addr, p.iface, p.bind, p.timeout,
        p.ttl, p.ident, some sv, p.payload⟩ ∧
      p.set_payload pv = ⟨p.socket_type, p.addr, p.iface, p.bind, p.timeout,
        p.ttl, p.ident, p.seq_cnt, some pv⟩ := by
  intro p os a st ifc b tv ttlv idv sv pv
  cases p
  exact ⟨rfl, rfl, rfl, rfl, rfl, rfl, rfl, rfl, rfl⟩

end RustPing

namespace RustPing

/-- C2: a probe succeeds exactly when a received datagram decodes to an
echo reply whose identifier equals the request's identifier: acceptance at
the decision point is equivalent to identifier equality, depends on no
field but the identifier, a successful run contains a decoded matching
reply, and a decoded matching reply makes the iteration return `Ok`. -/
theorem C2_ident_is_sole_acceptance_key :
    (∀ T id rep cl, handleReply T id rep cl = .success ↔ rep.ident = id) ∧
    (∀ T id cl rep rep', rep.ident = rep'.ident →
      handleReply T id rep cl = handleReply T id rep' cl) ∧
    (∀ isV4 T id ev te now, (pingLoop isV4 T id te now ev).result = .ok () →
      ∃ e ∈ ev, ∃ t c cl data rep, e = RecvEvent.datagram t c cl data ∧
        replyStep isV4 (pad2048 data) = .ok (some rep) ∧ rep.ident = id) ∧
    (∀ isV4 T id te now t c cl data rest rep, ¬ now + (T - te) < t →
      replyStep isV4 (pad2048 data) = .ok (some rep) → rep.ident = id →
      (pingLoop isV4 T id te now
        (.datagram t c cl data :: rest)).result = .ok ()) := by
  refine ⟨handleReply_success_iff, handleReply_ident_only,
    pingLoop_ok_ident, ?_⟩
  intro isV4 T id te now t c cl data rest rep hl hrs hid
  rw [pingLoop_reply_success hl hrs ((handleReply_success_iff T id rep cl).mpr hid)]

/-- C2 witness: identifier equality alone makes the decision succeed, and
a concrete matching reply makes a concrete run return `Ok`. -/
theorem C2_ident_is_sole_acceptance_key_witness :
    handleReply 4 7 ⟨7, 1, []⟩ none = .success ∧
    (pingLoop false 4 7 0 0
      [.datagram 1 0 none [129, 0, 0, 0, 0, 7, 0, 1]]).result = .ok () :=
  ⟨(C2_ident_is_sole_acceptance_key.1 4 7 ⟨7, 1, []⟩ none).mpr rfl,
    C2_ident_is_sole_acceptance_key.2.2.2 false 4 7 0 0 1 0 none
      [129, 0, 0, 0, 0, 7, 0, 1] []
      ⟨7, 1, (pad2048 [129, 0, 0, 0, 0, 7, 0, 1]).drop ICMP_HEADER_SIZE⟩
      (by decide) (replyStep_false_some decodeV6_d7) rfl⟩

/-- C3: the deadline elapsing without a matching reply yields the TimedOut
error kind on every path — when the event stream is exhausted, when the
next datagram arrives after the per-iteration deadline, and when the
explicit elapsed-time check after a non-matching reply fires. -/
theorem C3_deadline_elapse_is_timedOut :
    (∀ isV4 T id te now,
      (pingLoop isV4 T id te now []).result = .error (.IoError .timedOut)) ∧
    (∀ isV4 T id te now e rest, now + (T - te) < e.arrival →
      (pingLoop isV4 T id te now (e :: rest)).result =
        .error (.IoError .timedOut)) ∧
    (∀ T id tc rep, rep.ident ≠ id → T ≤ tc →
      handleReply T id rep (some tc) = .timedOut) ∧
    (∀ isV4 T id te now t c data rest rep tc, ¬ now + (T - te) < t →
      replyStep isV4 (pad2048 data) = .ok (some rep) → rep.ident ≠ id →
      T ≤ tc →
      (pingLoop isV4 T id te now
        (.datagram t c (some tc) data :: rest)).result =
        .error (.IoError .timedOut)) := by
  refine ⟨?_, ?_, ?_, ?_⟩
  · intro isV4 T id te now
    rw [pingLoop_nil]
  · intro isV4 T id te now e rest h
    rw [pingLoop_cons_late h]
  · intro T id tc rep hne hle
    exact handleReply_mismatch_timeout hne hle
  · intro isV4 T id te now t c data rest rep tc hl hrs hne hle
    rw [pingLoop_reply_timedOut hl hrs (handleReply_mismatch_timeout hne hle)]

/-- C3 witness at concrete inputs for each timeout path. -/
theorem C3_deadline_elapse_is_timedOut_witness :
    (pingLoop true 9 7 0 0 [.fault 99 (.other 0)]).result =
      .error (.IoError .timedOut) ∧
    handleReply 4 7 ⟨5, 1, []⟩ (some 9) = .timedOut ∧
    (pingLoop false 4 7 0 0
      [.datagram 1 0 (some 9) [129, 0, 0, 0, 0, 5, 0, 1]]).result =
      .error (.IoError .timedOut) :=
  ⟨C3_deadline_elapse_is_timedOut.2.1 true 9 7 0 0 (.fault 99 (.other 0)) []
      (by decide),
    C3_deadline_elapse_is_timedOut.2.2.1 4 7 9 ⟨5, 1, []⟩ (by decide)
      (by decide),
    C3_deadline_elapse_is_timedOut.2.2.2 false 4 7 0 0 1 0
      [129, 0, 0, 0, 0, 5, 0, 1] []
      ⟨5, 1, (pad2048 [129, 0, 0, 0, 0, 5, 0, 1]).drop ICMP_HEADER_SIZE⟩ 9
      (by decide) (replyStep_false_some decodeV6_d5) (by decide) (by decide)⟩

/-- C4: a failed outer IPv4 header decode is exactly the fatal
`DecodeV4Error` (and the only error the decode stage produces); a failed
ICMP echo-reply decode is the non-fatal continue marker on both paths; the
loop continues to the next receive on that marker with `time_elapsed`
unchanged; and a transport fault aborts the probe immediately, whatever
events would have followed. -/
theorem C4_decode_failure_policy :
    (∀ buf, replyStep true buf = .error .DecodeV4Error ↔
      IpV4Packet.decode buf = none) ∧
    (∀ isV4 buf err, replyStep isV4 buf = .error err →
      isV4 = true ∧ err = .DecodeV4Error ∧ IpV4Packet.decode buf = none) ∧
    (∀ buf p, IpV4Packet.decode buf = some p →
      EchoReply.decode .V4 p.data = none → replyStep true buf = .ok none) ∧
    (∀ buf, EchoReply.decode .V6 buf = none → replyStep false buf = .ok none) ∧
    (∀ isV4 T id te now t c cl data rest, ¬ now + (T - te) < t →
      replyStep isV4 (pad2048 data) = .ok none →
      pingLoop isV4 T id te now (.datagram t c cl data :: rest) =
        ⟨(pingLoop isV4 T id te t rest).result,
          (T - te) :: (pingLoop isV4 T id te t rest).deadlines,
          (pingLoop isV4 T id te t rest).finish⟩) ∧
    (∀ isV4 T id te now t k rest, ¬ now + (T - te) < t →
      pingLoop isV4 T id te now (.fault t k :: rest) =
        ⟨.error (.IoError k), [T - te], t⟩) := by
  refine ⟨?_, ?_, ?_, ?_, ?_, ?_⟩
  · intro buf
    constructor
    · intro h
      cases hip : IpV4Packet.decode buf with
      | none => rfl
      | some p =>
        exfalso
        cases hd : EchoReply.decode .V4 p.data with
        | none => rw [replyStep_true_icmp_none hip hd] at h; simp at h
        | some rep => rw [replyStep_true_icmp_some hip hd] at h; simp at h
    · exact replyStep_true_outer
  · intro isV4 buf err h
    cases isV4 with
    | false =>
      exfalso
      cases hd : EchoReply.decode .V6 buf with
      | none => rw [replyStep_false_none hd] at h; simp at h
      | some rep => rw [replyStep_false_some hd] at h; simp at h
    | true =>
      cases hip : IpV4Packet.decode buf with
      | none =>
        rw [replyStep_true_outer hip] at h
        injection h with h2
        exact ⟨rfl, h2.symm, rfl⟩
      | some p =>
        exfalso
        cases hd : EchoReply.decode .V4 p.data with
        | none => rw [replyStep_true_icmp_none hip hd] at h; simp at h
        | some rep => rw [replyStep_true_icmp_some hip hd] at h; simp at h
  · intro buf p h1 h2
    exact replyStep_true_icmp_none h1 h2
  · intro buf h
    exact replyStep_false_none h
  · intro isV4 T id te now t c cl data rest hl hrs
    exact pingLoop_continue hl hrs
  · intro isV4 T id te now t k rest hl
    exact pingLoop_fault hl

/-- C4 witness at concrete inputs: an empty buffer fails the outer decode
fatally and the ICMP decode non-fatally; a decode-failing datagram lets a
concrete run continue; a fault event aborts a concrete run. -/
theorem C4_decode_failure_policy_witness :
    replyStep true [] = .error .DecodeV4Error ∧
    replyStep false [] = .ok none ∧
    pingLoop false 4 7 0 0 [.datagram 1 0 none []] =
      ⟨(pingLoop false 4 7 0 1 []).result,
        4 :: (pingLoop false 4 7 0 1 []).deadlines,
        (pingLoop false 4 7 0 1 []).finish⟩ ∧
    pingLoop true 4 7 0 0 [.fault 2 (.other 5)] =
      ⟨.error (.IoError (.other 5)), [4], 2⟩ :=
  ⟨(C4_decode_failure_policy.1 []).mpr rfl,
    C4_decode_failure_policy.2.2.2.1 [] rfl,
    C4_decode_failure_policy.2.2.2.2.1 false 4 7 0 0 1 0 none [] []
      (by decide) (replyStep_false_none decodeV6_pad_nil),
    C4_decode_failure_policy.2.2.2.2.2 true 4 7 0 0 2 (.other 5) []
      (by decide)⟩

/-- C8: when the clock reading after a non-matching decoded reply fails
(the system clock moved backwards past the start timestamp), the probe
aborts with `InternalError` instead of continuing. -/
theorem C8_clock_failure_internal_error :
    (∀ T id rep, rep.ident ≠ id → handleReply T id rep none = .internalErr) ∧
    (∀ isV4 T id te now t c data rest rep, ¬ now + (T - te) < t →
      replyStep isV4 (pad2048 data) = .ok (some rep) → rep.ident ≠ id →
      (pingLoop isV4 T id te now
        (.datagram t c none data :: rest)).result = .error .InternalError) := by
  refine ⟨?_, ?_⟩
  · intro T id rep h
    exact handleReply_mismatch_none h
  · intro isV4 T id te now t c data rest rep hl hrs hne
    rw [pingLoop_reply_internal hl hrs (handleReply_mismatch_none hne)]

/-- C8 witness: a concrete non-matching reply with a failed clock reading
aborts the run with `InternalError`. -/
theorem C8_clock_failure_internal_error_witness :
    (pingLoop false 4 7 0 0
      [.datagram 1 0 none [129, 0, 0, 0, 0, 5, 0, 1]]).result =
      .error .InternalError :=
  C8_clock_failure_internal_error.2 false 4 7 0 0 1 0
    [129, 0, 0, 0, 0, 5, 0, 1] []
    ⟨5, 1, (pad2048 [129, 0, 0, 0, 0, 5, 0, 1]).drop ICMP_HEADER_SIZE⟩
    (by decide) (replyStep_false_some decodeV6_d5) (by decide)

/-- C9: the loop's outcome ignores the byte count the transport reports;
the buffer handed to decoding is the datagram padded with zeros to the full
2048-byte zero-initialized scratch buffer; and a decoded IPv6 reply's
payload is the datagram's payload extended with those trailing zero bytes,
with length 2040 independent of the datagram length. -/
theorem C9_count_ignored_padded_decode :
    (∀ isV4 T id te now t c c' cl data rest,
      pingLoop isV4 T id te now (.datagram t c cl data :: rest) =
        pingLoop isV4 T id te now (.datagram t c' cl data :: rest)) ∧
    (∀ data : List Nat, (pad2048 data).length = 2048) ∧
    (∀ data : List Nat, data.length ≤ 2048 →
      pad2048 data = data ++ List.replicate (2048 - data.length) 0) ∧
    (∀ data rep, ICMP_HEADER_SIZE ≤ data.length → data.length ≤ 2048 →
      EchoReply.decode .V6 (pad2048 data) = some rep →
      rep.payload = data.drop ICMP_HEADER_SIZE ++
        List.replicate (2048 - data.length) 0 ∧
      rep.payload.length = 2040) := by
  refine ⟨?_, pad2048_length, fun data h => pad2048_of_le h, ?_⟩
  · intro isV4 T id te now t c c' cl data rest
    simp only [pingLoop, RecvEvent.arrival]
  · intro data rep h8 h2048 hdec
    rw [decodeV6_pad] at hdec
    split at hdec
    · have hrep := Option.some.inj hdec
      have hpay : rep.payload = (pad2048 data).drop ICMP_HEADER_SIZE := by
        rw [← hrep]
      rw [pad2048_of_le h2048, List.drop_append_of_le_length h8] at hpay
      refine ⟨hpay, ?_⟩
      rw [hpay, List.length_append, List.length_drop, List.length_replicate]
      simp only [ICMP_HEADER_SIZE] at h8 ⊢
      omega
    · exact absurd hdec (by simp)

/-- C9 witness: count-insensitivity at a concrete run, the concrete padding
equation for the empty datagram, and the trailing-zero payload of a
concrete decoded reply. -/
theorem C9_count_ignored_padded_decode_witness :
    pingLoop false 4 7 0 0 [.datagram 1 17 none []] =
      pingLoop false 4 7 0 0 [.datagram 1 99 none []] ∧
    pad2048 [] = [] ++ List.replicate 2048 0 ∧
    (⟨5, 1, (pad2048 [129, 0, 0, 0, 0, 5, 0, 1]).drop ICMP_HEADER_SIZE⟩ :
        EchoReply).payload =
      [129, 0, 0, 0, 0, 5, 0, 1].drop ICMP_HEADER_SIZE ++
        List.replicate 2040 0 :=
  ⟨C9_count_ignored_padded_decode.1 false 4 7 0 0 1 17 99 none [] [],
    C9_count_ignored_padded_decode.2.2.1 [] (by decide),
    (C9_count_ignored_padded_decode.2.2.2 [129, 0, 0, 0, 0, 5, 0, 1]
      ⟨5, 1, (pad2048 [129, 0, 0, 0, 0, 5, 0, 1]).drop ICMP_HEADER_SIZE⟩
      (by decide) (by decide) decodeV6_d5).1⟩

end RustPing
